import Mathlib

/-!
Shallow embedding of koishi-plugin-music-to-voice (search / paginate / select
conversation state machine, bitrate-fallback resolver, delivery pipeline).

Sources embedded:
* `src/src/index.ts` (the main variant), namespace `IndexTs`
* `src/unnamed/part_000` (the middleware variant), namespace `Part000`

JavaScript values flowing through the normalizer and the search items are
modelled by the inductive type `JVal`; `undefined` is represented by `Option`
(`none` = absent / undefined).  Time is in integer milliseconds (`Nat`).
-/

namespace MusicToVoice

/-!  Character-list implementations of the string primitives the source uses
(`trim`, `toLowerCase`, substring tests, decimal parsing), so that every
definition evaluates inside the kernel. -/

/-- `s.trim()`: strip leading and trailing whitespace. -/
def trimS (s : String) : String :=
  ⟨((s.data.dropWhile Char.isWhitespace).reverse.dropWhile Char.isWhitespace).reverse⟩

/-- `s.toLowerCase()` (ASCII, which is all the urls here contain). -/
def toLowerS (s : String) : String :=
  ⟨s.data.map Char.toLower⟩

/-- Does the second list start with the first? -/
def startsWithChars : List Char → List Char → Bool
  | [], _ => true
  | _ :: _, [] => false
  | p :: ps, c :: cs => p == c && startsWithChars ps cs

/-- `String.prototype.includes`: does `pat` occur inside the list? -/
def hasInfixChars (pat : List Char) : List Char → Bool
  | [] => startsWithChars pat []
  | c :: cs => startsWithChars pat (c :: cs) || hasInfixChars pat cs

/-- Does the list end with `pat`? -/
def hasSuffixChars (pat l : List Char) : Bool :=
  startsWithChars pat.reverse l.reverse

/-- Accumulate decimal digits; any non-digit character aborts. -/
def natOfDigitsAux : List Char → Nat → Option Nat
  | [], acc => some acc
  | c :: cs, acc =>
    if c.isDigit then natOfDigitsAux cs (acc * 10 + (c.toNat - 48)) else none

/-- Parse a non-empty all-digit list as a natural number. -/
def natOfDigits : List Char → Option Nat
  | [] => none
  | cs => natOfDigitsAux cs 0

/-- `Number(text)` combined with `Number.isInteger(..)`, modelled for decimal
integer literals with an optional sign (non-integer or non-numeric text maps
to `none`, which the source treats the same as NaN / non-integer). -/
def parseIntS (s : String) : Option Int :=
  match s.data with
  | '-' :: rest => (natOfDigits rest).map (fun n => -(n : Int))
  | '+' :: rest => (natOfDigits rest).map (fun n => (n : Int))
  | cs => (natOfDigits cs).map (fun n => (n : Int))

/-- A JSON-ish JavaScript value (no `undefined`: absence is `Option.none`). -/
inductive JVal where
  | null
  | bool (b : Bool)
  | num (n : Int)
  | str (s : String)
  | arr (xs : List JVal)
  | obj (fields : List (String × JVal))

/-- Raw property lookup on an object: `none` models JS `undefined`
(non-objects have no string-keyed properties in the payloads modelled here). -/
def jLookup (v : JVal) (key : String) : Option JVal :=
  match v with
  | .obj fs => fs.lookup key
  | _ => none

/-- `v?.key` as consumed by a `??` chain: both a missing property (undefined)
and a property holding `null` are skipped by `??`, so both map to `none`. -/
def jGet (v : JVal) (key : String) : Option JVal :=
  match jLookup v key with
  | some .null => none
  | some w => some w
  | none => none

/-- JS falsiness on the values representable in `JVal`
(`null`, `false`, `0`, `""`; arrays and objects are always truthy). -/
def jFalsy : JVal → Bool
  | .null => true
  | .bool b => !b
  | .num n => n == 0
  | .str s => s == ""
  | .arr _ => false
  | .obj _ => false

mutual

/-- JS `String(x)` / `.toString()` on the payload shapes that occur here. -/
def jToString : JVal → String
  | .null => "null"
  | .bool b => if b then "true" else "false"
  | .num n => toString n
  | .str s => s
  | .arr xs => String.intercalate "," (jToStringList xs)
  | .obj _ => "[object Object]"

/-- Element-wise `jToString`, for JS array `toString` (comma-joined). -/
def jToStringList : List JVal → List String
  | [] => []
  | x :: xs => jToString x :: jToStringList xs

end

/-- JS `Number(x)` restricted to the shapes the API yields (numbers, decimal
integer strings, booleans, null); arrays/objects are treated as NaN (`none`),
a simplification of JS `ToNumber` for shapes that do not occur in payloads. -/
def jToNumber : JVal → Option Int
  | .num n => some n
  | .str s => if trimS s = "" then some 0 else parseIntS (trimS s)
  | .bool b => some (if b then 1 else 0)
  | .null => some 0
  | .arr _ => none
  | .obj _ => none

/-- `toId` from `src/src/index.ts` lines 47-51: `String(x).trim()`,
empty / null / undefined mapping to undefined. -/
def toId : Option JVal → Option String
  | none => none
  | some .null => none
  | some v =>
    let s := trimS (jToString v)
    if s = "" then none else some s

/-- `pickName` (`index.ts` 53-55): `(it?.name ?? it?.title ?? '未知歌曲').toString()`. -/
def pickName (it : JVal) : String :=
  jToString (((jGet it "name") <|> (jGet it "title")).getD (.str "未知歌曲"))

/-- `pickArtist` (`index.ts` 57-59):
`(it?.artist ?? it?.author ?? it?.singer ?? '').toString()`. -/
def pickArtist (it : JVal) : String :=
  jToString (((jGet it "artist") <|> (jGet it "author") <|> (jGet it "singer")).getD (.str ""))

/-- `pickDurationSec` (`index.ts` 61-69): values above 10000 are treated as
milliseconds and floor-divided by 1000; non-positive / NaN become undefined. -/
def pickDurationSec (it : JVal) : Option Int :=
  match (jGet it "duration") <|> (jGet it "time") with
  | none => none
  | some d =>
    match jToNumber d with
    | none => none
    | some n =>
      if n ≤ 0 then none
      else if n > 10000 then some (n / 1000)
      else some n

/-- `fmtDuration` (`index.ts` 71-76): `m:ss` with the seconds zero-padded;
undefined for unknown or non-positive durations. -/
def fmtDuration : Option Int → Option String
  | none => none
  | some sec =>
    if sec ≤ 0 then none
    else
      let m := sec / 60
      let s := sec % 60
      some (toString m ++ ":" ++ (if s < 10 then "0" ++ toString s else toString s))

/-- `url.toLowerCase().includes('.wma')`. -/
def lowerHasWma (u : String) : Bool :=
  hasInfixChars ".wma".data (toLowerS u).data

/-- `/\.wma(\?|$)/i.test(url)`: `.wma?` occurs somewhere, or the url ends in
`.wma`, case-insensitively. -/
def wmaRegexTest (u : String) : Bool :=
  hasInfixChars ".wma?".data (toLowerS u).data ||
    hasSuffixChars ".wma".data (toLowerS u).data

/-- `isLikelyWma` (`index.ts` 83-86). -/
def isLikelyWma : Option String → Bool
  | none => false
  | some u => wmaRegexTest u || lowerHasWma u

/-- `normalizeSearchItems` (`index.ts` 527-538): pick the payload out of the
known upstream response shapes; note that it performs no per-item filtering. -/
def normalizeSearchItems (resp : JVal) : List JVal :=
  let r := ((jGet resp "data") <|> (jGet resp "result")).getD resp
  let a := ((jGet r "data") <|> (jGet r "result") <|> (jGet r "songs") <|> (jGet r "list")).getD r
  if jFalsy a then []
  else
    match a with
    | .arr xs => xs
    | _ =>
      match jGet a "list" with
      | some (.arr xs) => xs
      | _ =>
        match jGet a "songs" with
        | some (.arr xs) => xs
        | _ => []

namespace IndexTs

/-- `SendMode` from `src/src/index.ts`. -/
inductive SendMode where
  | record
  | buffer
deriving DecidableEq

/-- The configuration fields of `src/src/index.ts` that the embedded
operations read (strings keep their source defaults in `defCfg` below). -/
structure Config where
  command : String
  aliasList : List String
  br : Nat
  sendMode : SendMode
  forceTranscode : Bool
  maxSongDurationMin : Nat
  searchCount : Nat
  nextPageCmd : String
  prevPageCmd : String
  exitCmds : List String
  showExitHint : Bool
  recallMessages : List String
  tipRecallSec : Nat
  menuRecallSec : Nat
  recallOnlyAfterSuccess : Bool
  keepMenuIfSendFailed : Bool
  promptTimeoutSec : Nat

/-- `PendingState` (`index.ts` 486-494). -/
structure PendingState where
  userId : String
  channelId : String
  page : Nat
  keyword : String
  items : List JVal
  createdAt : Nat
  menuMessageIds : List String

/-- Observable side effects of one selection handling. -/
inductive Ev where
  | resolveCall (br : Nat)
  | download
  | transcode
  | wavFallback
  | sendDirect (url : String)
  | sendBuffer
  | scheduleTipRecall
  | scheduleMenuRecall
deriving DecidableEq

/-- The environment (upstream API, download / ffmpeg / message transport):
`resolve br` is the truthy-checked `r?.url` value of the `types=url` call at
bitrate `br` (`none` covers both an HTTP error and a missing url field);
`search page` is the `types=search` response; `menuSendId` is the message id
`session.send` returns for a menu (a non-string id is dropped by the code). -/
structure Env where
  resolve : Nat → Option String
  search : Nat → Except Unit JVal
  menuSendId : Option String
  downloadOk : Bool
  transcodeOk : Bool
  wavOk : Bool
  sendOk : Bool

/-- The descending bitrate ladder (`index.ts` 616-624): fixed ladder
999→740→320→192→128 truncated to start at the configured tier. -/
def brFallback (br : Nat) : List Nat :=
  if br = 999 then [999, 740, 320, 192, 128]
  else if br = 740 then [740, 320, 192, 128]
  else if br = 320 then [320, 192, 128]
  else if br = 192 then [192, 128]
  else [128]

/-- Whether a `r?.url` value counts as a hit (`if (r?.url)`: present and
truthy, i.e. a non-empty string). -/
def usableUrl : Option String → Bool
  | some u => u != ""
  | none => false

/-- The `for (const br of brFallback)` loop (`index.ts` 630-647): try each
tier in order, stop at the first tier whose resolve call returns a truthy
url; an HTTP error at one tier just moves on to the next.  Returns the
`finalUrl`/`finalBr` pair (if any) and the list of tiers actually queried. -/
def resolveLoop (env : Env) : List Nat → Option (String × Nat) × List Ev
  | [] => (none, [])
  | br :: rest =>
    match env.resolve br with
    | some u =>
      if u != "" then (some (u, br), [Ev.resolveCall br])
      else
        let r := resolveLoop env rest
        (r.1, Ev.resolveCall br :: r.2)
    | none =>
      let r := resolveLoop env rest
      (r.1, Ev.resolveCall br :: r.2)

/-- The duration-limit guard (`index.ts` 660):
`cfg.maxSongDurationMin > 0 && durSec && durSec > cfg.maxSongDurationMin * 60`. -/
def durationGuard (cfg : Config) (chosen : JVal) : Bool :=
  decide (0 < cfg.maxSongDurationMin) &&
    (match pickDurationSec chosen with
     | some d => (d != 0) && decide (d > (cfg.maxSongDurationMin * 60 : Int))
     | none => false)

/-- `needTranscode` (`index.ts` 669-673); at this point `finalBr` is always
defined, so `finalBr !== undefined && finalBr >= 320` is just `320 ≤ br`. -/
def needTranscode (cfg : Config) (u : String) (br : Nat) : Bool :=
  cfg.forceTranscode || (cfg.sendMode == SendMode.buffer) ||
    isLikelyWma (some u) || decide (320 ≤ br)

/-- How `handleSelection` ended. -/
inductive SelOutcome where
  | invalidNumber
  | noSongId
  | resolveFailed
  | durationExceeded
  | delivered
  | deliveryFailed
deriving DecidableEq

/-- Result of one `handleSelection` run: outcome, observable side effects,
the candidates the Direct-Link Resolver was invoked on, the pending entry
stored for this key afterwards, and the `sentOk` flag. -/
structure SelResult where
  outcome : SelOutcome
  events : List Ev
  resolvedCandidates : List JVal
  pendingAfter : Option PendingState
  sentOk : Bool

/-- The recall scheduling block (`index.ts` 710-719). -/
def recallEvents (cfg : Config) (sentOk : Bool) : List Ev :=
  if !cfg.recallOnlyAfterSuccess || sentOk then
    (if cfg.recallMessages.contains "generationTip" && cfg.tipRecallSec > 0
     then [Ev.scheduleTipRecall] else []) ++
    (if cfg.recallMessages.contains "songList" && cfg.menuRecallSec > 0 then
       if !(cfg.keepMenuIfSendFailed && !sentOk) then [Ev.scheduleMenuRecall] else []
     else [])
  else []

/-- The tip-recall scheduling used on the early-abort paths
(`index.ts` 653-655 and 663-665). -/
def tipRecallEvents (cfg : Config) : List Ev :=
  if cfg.recallMessages.contains "generationTip" && cfg.tipRecallSec > 0
  then [Ev.scheduleTipRecall] else []

/-- `handleSelection` (`index.ts` 592-722).  Every return path of the source
ends in `pending.delete(k)`, hence `pendingAfter := none` throughout.  The
delivery section models the nested try/catch: a failed `ffmpegTranscode` (or a
failed buffer send) falls back to the plain wav pipeline before the outer
catch reports failure.  Message sends of plain text (tips, error texts) are
not modelled as events; the recall scheduling is. -/
def handleSelection (cfg : Config) (env : Env) (st : PendingState) (n : Int) :
    SelResult :=
  if n < 1 ∨ n > (st.items.length : Int) then
    { outcome := .invalidNumber, events := [], resolvedCandidates := [],
      pendingAfter := none, sentOk := false }
  else
    let chosen := st.items.getD (n.toNat - 1) .null
    match toId ((jGet chosen "id") <|> (jGet chosen "songid")) with
    | none =>
      { outcome := .noSongId, events := [], resolvedCandidates := [],
        pendingAfter := none, sentOk := false }
    | some _ =>
      let rl := resolveLoop env (brFallback cfg.br)
      match rl.1 with
      | none =>
        { outcome := .resolveFailed, events := rl.2 ++ tipRecallEvents cfg,
          resolvedCandidates := [chosen], pendingAfter := none, sentOk := false }
      | some (finalUrl, finalBr) =>
        if durationGuard cfg chosen then
          { outcome := .durationExceeded, events := rl.2 ++ tipRecallEvents cfg,
            resolvedCandidates := [chosen], pendingAfter := none, sentOk := false }
        else
          if !needTranscode cfg finalUrl finalBr && cfg.sendMode == SendMode.record then
            let ok := env.sendOk
            { outcome := if ok then .delivered else .deliveryFailed,
              events := rl.2 ++ [Ev.sendDirect finalUrl] ++ recallEvents cfg ok,
              resolvedCandidates := [chosen], pendingAfter := none, sentOk := ok }
          else
            if !env.downloadOk then
              { outcome := .deliveryFailed,
                events := rl.2 ++ [Ev.download] ++ recallEvents cfg false,
                resolvedCandidates := [chosen], pendingAfter := none, sentOk := false }
            else
              if env.transcodeOk && env.sendOk then
                { outcome := .delivered,
                  events := rl.2 ++ [Ev.download, Ev.transcode, Ev.sendBuffer] ++
                    recallEvents cfg true,
                  resolvedCandidates := [chosen], pendingAfter := none, sentOk := true }
              else
                if env.wavOk && env.sendOk then
                  { outcome := .delivered,
                    events := rl.2 ++ [Ev.download, Ev.transcode, Ev.wavFallback,
                      Ev.sendBuffer] ++ recallEvents cfg true,
                    resolvedCandidates := [chosen], pendingAfter := none, sentOk := true }
                else
                  { outcome := .deliveryFailed,
                    events := rl.2 ++ [Ev.download, Ev.transcode, Ev.wavFallback] ++
                      recallEvents cfg false,
                    resolvedCandidates := [chosen], pendingAfter := none, sentOk := false }

/-- `isExitInput` (`index.ts` 502-506). -/
def isExitInput (input : String) (cfg : Config) : Bool :=
  let t := trimS input
  if t = "" then false
  else ((cfg.exitCmds.map trimS).filter (fun x => x != "")).contains t

/-- `Number(text)` + `Number.isInteger` modelled for decimal integer
literals (non-integer or non-numeric text yields `none`). -/
def numberAsInt (s : String) : Option Int :=
  parseIntS s

/-- `text.split(/\s+/)[0]` on an already-trimmed text: the first maximal
whitespace-free run. -/
def firstWord (s : String) : String :=
  ⟨s.data.takeWhile (fun c => !c.isWhitespace)⟩

/-- What the middleware did with the message. -/
inductive MwAction where
  | next
  | handled
deriving DecidableEq

/-- Result of one middleware run. -/
structure MwResult where
  action : MwAction
  pendingAfter : Option PendingState
  sel : Option SelResult

/-- Candidates the resolver was invoked on during this middleware run. -/
def MwResult.resolvedOn (r : MwResult) : List JVal :=
  match r.sel with
  | some s => s.resolvedCandidates
  | none => []

/-- The body shared by the two page-turn branches (`index.ts` 745-758 and
763-776), after the in-place page mutation: on success the stored entry gets
the new items and menu ids (`createdAt` is not refreshed in this variant);
on an upstream error the already-mutated entry stays as it is. -/
def pageTurnBody (env : Env) (st1 : PendingState) : MwResult :=
  match env.search st1.page with
  | .ok resp =>
    let items := normalizeSearchItems resp
    { action := .handled,
      pendingAfter := some { st1 with items := items, menuMessageIds := env.menuSendId.toList },
      sel := none }
  | .error _ =>
    { action := .handled, pendingAfter := some st1, sel := none }

/-- The pending-reply middleware (`index.ts` 725-790).  `rawText` is the raw
message content; note that `st.page += 1` (resp. the `Math.max(1, ...)`
decrement) happens on the stored object before the search call. -/
def middlewareStep (cfg : Config) (env : Env) (stOpt : Option PendingState)
    (rawText : String) : MwResult :=
  let text := trimS rawText
  if text = "" then { action := .next, pendingAfter := stOpt, sel := none }
  else
    let first : String := firstWord text
    if first = cfg.command ∨ first ∈ cfg.aliasList then
      { action := .next, pendingAfter := stOpt, sel := none }
    else
      match stOpt with
      | none => { action := .next, pendingAfter := none, sel := none }
      | some st =>
        if isExitInput text cfg then
          { action := .handled, pendingAfter := none, sel := none }
        else if text = cfg.nextPageCmd then
          pageTurnBody env { st with page := st.page + 1 }
        else if text = cfg.prevPageCmd then
          pageTurnBody env { st with page := max 1 (st.page - 1) }
        else
          match numberAsInt text with
          | some n =>
            let r := handleSelection cfg env st n
            { action := .handled, pendingAfter := r.pendingAfter, sel := some r }
          | none => { action := .next, pendingAfter := some st, sel := none }

/-- The timeout timer callback (`index.ts` 1020-1027): fired at some time
`now`, it deletes the entry when `now - createdAt ≥ promptTimeoutSec * 1000`. -/
def timeoutCheck (cfg : Config) (cur : Option PendingState) (now : Nat) :
    Option PendingState :=
  match cur with
  | none => none
  | some st =>
    if now - st.createdAt ≥ cfg.promptTimeoutSec * 1000 then none else some st

/-- The per-item line of the text menu (`index.ts` 552, the template literal
inside the `forEach`); `i` is the 0-based index. -/
def menuItemLine (it : JVal) (i : Nat) : String :=
  let idx := i + 1
  let title := pickName it
  let artist := pickArtist it
  let suffix :=
    match fmtDuration (pickDurationSec it) with
    | some d => "  [" ++ d ++ "]"
    | none => ""
  toString idx ++ ". " ++ title ++
    (if artist != "" then " - " ++ artist else "") ++ suffix

/-- `renderMenuText` as the list of lines it pushes (`index.ts` 540-559). -/
def renderMenuLines (cfg : Config) (keyword : String) (page : Nat)
    (items : List JVal) : List String :=
  ["🎵 搜索：" ++ keyword ++ "（第 " ++ toString page ++ " 页）", ""] ++
    ((items.take cfg.searchCount).enum.map (fun p => menuItemLine p.2 p.1)) ++
    ["", "指令：" ++ cfg.prevPageCmd ++ " / " ++ cfg.nextPageCmd] ++
    (if cfg.showExitHint then ["退出：" ++ String.intercalate " / " cfg.exitCmds] else []) ++
    ["回复序号即可点歌。"]

/-- `renderMenuText` (`index.ts` 540-560): the pushed lines joined by `\n`. -/
def renderMenuText (cfg : Config) (keyword : String) (page : Nat)
    (items : List JVal) : String :=
  String.intercalate "\n" (renderMenuLines cfg keyword page items)

end IndexTs

namespace Part000

/-- `artist?: string[] | string` of `src/unnamed/part_000`'s `SongItem`. -/
inductive ArtistField where
  | absent
  | one (s : String)
  | many (xs : List String)
deriving DecidableEq

/-- `SongItem` (`part_000` 51-58), restricted to the fields the embedded
operations read. -/
structure Song where
  name : String
  artist : ArtistField
  urlId : Option String
  id : String
deriving DecidableEq

/-- `PendingState` (`part_000` 60-68). -/
structure PendingState where
  userId : String
  channelId : String
  page : Nat
  keyword : String
  songs : List Song
  createdAt : Nat
  menuMessageIds : List String

/-- The configuration fields of `part_000` the embedded operations read. -/
structure Config where
  promptTimeoutSec : Nat
  searchListCount : Nat
  nextPageCommand : String
  prevPageCommand : String
  exitCommandList : List String
  menuExitCommandTip : Bool
  sendMode : String
  forceTranscode : Bool
  recallMessages : List String
  tipRecallSec : Nat
  menuRecallSec : Nat
  recallOnlyAfterSuccess : Bool
  keepMenuIfSendFailed : Bool

/-- The environment of the `part_000` middleware: `search page` already
carries the extracted song list of `Array.isArray(data) ? data : (data?.data
?? [])` (`.error` = the HTTP call threw); `resolveUrl` is the `urlData?.url`
of the `types=url` call; `menuIds` the ids `safeSend` returns for a menu. -/
structure Env where
  search : Nat → Except Unit (List Song)
  menuIds : List String
  resolveUrl : Except Unit (Option String)
  downloadOk : Bool
  wavOk : Bool
  silkAvail : Bool
  silkOk : Bool
  sendOk : Bool

/-- `normalizeArtists` (`part_000` 168-172). -/
def normalizeArtists : ArtistField → String
  | .absent => ""
  | .one s => s
  | .many xs => String.intercalate "/" xs

/-- `isExitInput` (`part_000` 174-177). -/
def isExitInputP (input : String) (exits : List String) : Bool :=
  exits.any (fun x => trimS x == trimS input)

/-- The per-item line of `renderMenu` (`part_000` 264-267). -/
def menuLine (s : Song) (i : Nat) : String :=
  let artist := normalizeArtists s.artist
  let title := if artist != "" then s.name ++ " - " ++ artist else s.name
  toString (i + 1) ++ ". " ++ title

/-- `renderMenu` as the list of lines it pushes (`part_000` 259-276). -/
def renderMenuLinesP (cfg : Config) (keyword : String) (page : Nat)
    (songs : List Song) : List String :=
  ["🎵 搜索：" ++ keyword ++ "（第 " ++ toString page ++ " 页）", ""] ++
    (songs.enum.map (fun p => menuLine p.2 p.1)) ++
    ["", "指令：" ++ cfg.prevPageCommand ++ " / " ++ cfg.nextPageCommand] ++
    (if cfg.menuExitCommandTip && cfg.exitCommandList.length > 0 then
       ["退出：" ++ String.intercalate " / " cfg.exitCommandList] else []) ++
    ["回复序号即可点歌。"]

/-- What the `part_000` middleware did with the message. -/
inductive ActionP where
  | next
  | replied (tag : String)
deriving DecidableEq

/-- Result of one `part_000` middleware run (`sentOk = some b` when the
selection branch ran with send result `b`). -/
structure MwResultP where
  action : ActionP
  pendingAfter : Option PendingState
  sentOk : Option Bool
  resolvedOn : List Song

/-- The selection branch (`part_000` 371-414): resolve the direct url at the
configured bitrate, send the direct link or the download→wav→silk buffer, then
on success delete the pending entry, on failure re-store it with the same
songs and a refreshed `createdAt`. -/
def selectionStep (cfg : Config) (env : Env) (st : PendingState) (song : Song)
    (now : Nat) : MwResultP :=
  let sentOk :=
    match env.resolveUrl with
    | .error _ => false
    | .ok urlOpt =>
      match urlOpt with
      | none => false
      | some u =>
        if u = "" then false
        else
          let useBuffer := (cfg.sendMode == "buffer") || cfg.forceTranscode
          if !useBuffer then env.sendOk
          else env.downloadOk && env.wavOk && env.silkAvail && env.silkOk && env.sendOk
  { action := .replied "selection",
    pendingAfter := if sentOk then none else some { st with createdAt := now },
    sentOk := some sentOk,
    resolvedOn := [song] }

/-- The `part_000` middleware (`part_000` 330-415): expiry check first, then
page turn, exit, numeric selection; everything else (and out-of-range or
non-integer numbers) falls through to `next()`. -/
def middlewareP (cfg : Config) (env : Env) (stOpt : Option PendingState)
    (content : String) (now : Nat) : MwResultP :=
  match stOpt with
  | none => { action := .next, pendingAfter := none, sentOk := none, resolvedOn := [] }
  | some st =>
    if now - st.createdAt > cfg.promptTimeoutSec * 1000 then
      { action := .next, pendingAfter := none, sentOk := none, resolvedOn := [] }
    else
      let input := trimS content
      if input = "" then
        { action := .next, pendingAfter := some st, sentOk := none, resolvedOn := [] }
      else if input = cfg.nextPageCommand ∨ input = cfg.prevPageCommand then
        let newPage := if input = cfg.nextPageCommand then st.page + 1 else max 1 (st.page - 1)
        match env.search newPage with
        | .ok songs =>
          if songs.length = 0 then
            { action := .replied "noMore", pendingAfter := some st, sentOk := none,
              resolvedOn := [] }
          else
            let st1 : PendingState :=
              { st with
                page := newPage, songs := songs, createdAt := now,
                menuMessageIds := env.menuIds }
            { action := .replied "menu", pendingAfter := some st1,
              sentOk := none, resolvedOn := [] }
        | .error _ =>
          { action := .replied "pageFailed", pendingAfter := some st, sentOk := none,
            resolvedOn := [] }
      else if isExitInputP input cfg.exitCommandList then
        { action := .replied "exited", pendingAfter := none, sentOk := none,
          resolvedOn := [] }
      else
        match IndexTs.numberAsInt input with
        | some idx =>
          if idx < 1 ∨ idx > (st.songs.length : Int) then
            { action := .next, pendingAfter := some st, sentOk := none, resolvedOn := [] }
          else
            let fallback : Song := { name := "", artist := .absent, urlId := none, id := "" }
            selectionStep cfg env st (st.songs.getD (idx.toNat - 1) fallback) now
        | none =>
          { action := .next, pendingAfter := some st, sentOk := none, resolvedOn := [] }

end Part000

namespace IndexTs

/-- The schema defaults of `src/src/index.ts` (`index.ts` 417-482). -/
def defCfg : Config :=
  { command := "music", aliasList := ["听歌"], br := 999, sendMode := .record,
    forceTranscode := false, maxSongDurationMin := 30, searchCount := 20,
    nextPageCmd := "下一页", prevPageCmd := "上一页", exitCmds := ["0", "不听了"],
    showExitHint := true, recallMessages := ["generationTip", "songList"],
    tipRecallSec := 10, menuRecallSec := 60, recallOnlyAfterSuccess := true,
    keepMenuIfSendFailed := true, promptTimeoutSec := 45 }

/-- Default configuration with the quality tier lowered to 128k. -/
def cfgBr128 : Config :=
  { defCfg with br := 128 }

/-- A search item with id, name and a 2000-second duration. -/
def songTune : JVal :=
  .obj [("id", .num 1001), ("name", .str "Tune"), ("duration", .num 2000)]

/-- A search item with id and name but no duration. -/
def songShort : JVal :=
  .obj [("id", .num 7), ("name", .str "Short")]

/-- A search item that has a name but neither `id` nor `songid`. -/
def songNoId : JVal :=
  .obj [("name", .str "Ghost")]

/-- Search item named "Song A", no artist, no duration. -/
def songA : JVal :=
  .obj [("name", .str "Song A")]

/-- Search item named "Song B", no artist, no duration. -/
def songB : JVal :=
  .obj [("name", .str "Song B")]

/-- Pending state holding `songTune`. -/
def stTune : PendingState :=
  { userId := "u", channelId := "c", page := 1, keyword := "k",
    items := [songTune], createdAt := 0, menuMessageIds := ["m0"] }

/-- Pending state holding `songShort`. -/
def stShort : PendingState :=
  { stTune with items := [songShort] }

/-- Pending state holding the id-less `songNoId`. -/
def stNoId : PendingState :=
  { stTune with items := [songNoId] }

/-- Environment where every upstream call fails. -/
def envBase : Env :=
  { resolve := fun _ => none, search := fun _ => .error (), menuSendId := none,
    downloadOk := true, transcodeOk := true, wavOk := true, sendOk := true }

/-- Environment where resolution yields a url only at tier 320. -/
def envHit320 : Env :=
  { envBase with resolve := fun br => if br == 320 then some "http://h/a.mp3" else none }

/-- Environment where every tier resolves to a plain mp3 url. -/
def envHitAll : Env :=
  { envBase with resolve := fun _ => some "http://h/a.mp3" }

/-- Environment where resolution succeeds but the message send fails. -/
def envSendFail : Env :=
  { envBase with
    resolve := fun _ => some "http://h/a.mp3", sendOk := false,
    downloadOk := false, transcodeOk := false, wavOk := false }

/-- Environment where tier 999 resolves to a `.wma` url. -/
def envWma : Env :=
  { envBase with resolve := fun br => if br == 999 then some "http://h/a.wma" else none }

/-- Does an event list contain a direct-link send? -/
def hasDirectSend (evs : List Ev) : Bool :=
  evs.any fun e => match e with | .sendDirect _ => true | _ => false

end IndexTs

namespace Part000

/-- The schema defaults of `src/unnamed/part_000` (`part_000` 108-159). -/
def pCfg : Config :=
  { promptTimeoutSec := 45, searchListCount := 20, nextPageCommand := "下一页",
    prevPageCommand := "上一页", exitCommandList := ["0", "不听了"],
    menuExitCommandTip := true, sendMode := "record", forceTranscode := false,
    recallMessages := ["generationTip", "songList"], tipRecallSec := 10,
    menuRecallSec := 60, recallOnlyAfterSuccess := true, keepMenuIfSendFailed := true }

/-- Song "Song A" with no artist field. -/
def pSongA : Song :=
  { name := "Song A", artist := .absent, urlId := none, id := "1" }

/-- Song "Song B" with no artist field. -/
def pSongB : Song :=
  { name := "Song B", artist := .absent, urlId := none, id := "2" }

/-- Pending state holding `pSongA`. -/
def pSt : PendingState :=
  { userId := "u", channelId := "c", page := 1, keyword := "k",
    songs := [pSongA], createdAt := 0, menuMessageIds := ["m0"] }

/-- Environment whose search call fails and whose resolve call succeeds. -/
def pEnvFailSearch : Env :=
  { search := fun _ => .error (), menuIds := [], resolveUrl := .ok (some "http://a.mp3"),
    downloadOk := true, wavOk := true, silkAvail := true, silkOk := true, sendOk := true }

/-- Environment where resolution succeeds but every send fails. -/
def pEnvSendFail : Env :=
  { pEnvFailSearch with sendOk := false }

end Part000

/-! ### Shared helper lemmas -/

/-- Every event the resolve ladder emits is a `resolveCall`. -/
theorem resolveLoop_events_shape (env : IndexTs.Env) :
    ∀ l : List Nat, ∀ e ∈ (IndexTs.resolveLoop env l).2, ∃ b, e = IndexTs.Ev.resolveCall b := by
  intro l
  induction l with
  | nil => intro e he; simp [IndexTs.resolveLoop] at he
  | cons br rest ih =>
    intro e he
    unfold IndexTs.resolveLoop at he
    cases h : env.resolve br with
    | some u =>
      rw [h] at he
      by_cases hu : u != ""
      · simp [hu] at he
        exact ⟨br, he⟩
      · simp [hu] at he
        rcases he with he | he
        · exact ⟨br, he⟩
        · exact ih e he
    | none =>
      rw [h] at he
      simp at he
      rcases he with he | he
      · exact ⟨br, he⟩
      · exact ih e he

/-- The resolve ladder never downloads. -/
theorem download_not_resolveEvents (env : IndexTs.Env) (l : List Nat) :
    IndexTs.Ev.download ∉ (IndexTs.resolveLoop env l).2 := by
  intro h
  obtain ⟨b, hb⟩ := resolveLoop_events_shape env l _ h
  cases hb

/-- The resolve ladder never sends a direct link. -/
theorem hasDirectSend_resolveEvents (env : IndexTs.Env) (l : List Nat) :
    IndexTs.hasDirectSend (IndexTs.resolveLoop env l).2 = false := by
  rw [IndexTs.hasDirectSend, List.any_eq_false]
  intro e he
  obtain ⟨b, hb⟩ := resolveLoop_events_shape env l _ he
  subst hb
  simp

/-- Recall scheduling emits only schedule events: no download. -/
theorem download_not_recallEvents (cfg : IndexTs.Config) (b : Bool) :
    IndexTs.Ev.download ∉ IndexTs.recallEvents cfg b := by
  unfold IndexTs.recallEvents
  split
  · intro h
    rcases List.mem_append.mp h with h | h
    · split at h <;> simp_all
    · split at h
      · split at h <;> simp_all
      · simp_all
  · simp

/-- Recall scheduling emits only schedule events: no direct send. -/
theorem hasDirectSend_recallEvents (cfg : IndexTs.Config) (b : Bool) :
    IndexTs.hasDirectSend (IndexTs.recallEvents cfg b) = false := by
  unfold IndexTs.recallEvents IndexTs.hasDirectSend
  split
  · rw [List.any_eq_false]
    intro e he
    rcases List.mem_append.mp he with h | h
    · split at h <;> simp_all
    · split at h
      · split at h <;> simp_all
      · simp_all
  · rfl

/-- The early-abort tip recall emits only a schedule event: no download. -/
theorem download_not_tipRecallEvents (cfg : IndexTs.Config) :
    IndexTs.Ev.download ∉ IndexTs.tipRecallEvents cfg := by
  unfold IndexTs.tipRecallEvents
  split <;> simp

/-- `hasDirectSend` distributes over list append. -/
theorem hasDirectSend_append (a b : List IndexTs.Ev) :
    IndexTs.hasDirectSend (a ++ b) =
      (IndexTs.hasDirectSend a || IndexTs.hasDirectSend b) := by
  simp [IndexTs.hasDirectSend, List.any_append]

/-- A missed tier just adds its `resolveCall` and moves down the ladder. -/
theorem resolveLoop_cons_miss (env : IndexTs.Env) (br : Nat) (rest : List Nat)
    (h : IndexTs.usableUrl (env.resolve br) = false) :
    IndexTs.resolveLoop env (br :: rest) =
      ((IndexTs.resolveLoop env rest).1,
        IndexTs.Ev.resolveCall br :: (IndexTs.resolveLoop env rest).2) := by
  cases hr : env.resolve br with
  | some u =>
    rw [hr] at h
    have hu : (u != "") = false := by simpa [IndexTs.usableUrl] using h
    simp only [IndexTs.resolveLoop, hr, hu, Bool.false_eq_true, if_false]
  | none =>
    simp only [IndexTs.resolveLoop, hr]

/-- A tier that yields a truthy url stops the ladder at once. -/
theorem resolveLoop_cons_hit (env : IndexTs.Env) (br : Nat) (rest : List Nat)
    (u : String) (hr : env.resolve br = some u) (hu : u ≠ "") :
    IndexTs.resolveLoop env (br :: rest) = (some (u, br), [IndexTs.Ev.resolveCall br]) := by
  simp only [IndexTs.resolveLoop, hr]
  simp [hu]

/-! ### Claim theorems -/

/-- C7: for every array of raw items `xs`, the normalizer returns the same
candidate sequence for the bare array, `{data: xs}`, `{result: xs}` and the
nested `{result: {list: xs}}` — all four known upstream shapes normalize to
the same result (namely `xs` itself). -/
theorem C7_shape_equivalence (xs : List JVal) :
    normalizeSearchItems (.arr xs) = xs ∧
    normalizeSearchItems (.obj [("data", .arr xs)]) = xs ∧
    normalizeSearchItems (.obj [("result", .arr xs)]) = xs ∧
    normalizeSearchItems (.obj [("result", .obj [("list", .arr xs)])]) = xs :=
  ⟨rfl, rfl, rfl, rfl⟩

/-- C6 counterexample: an item with neither an identifier (under `id` or
`songid`) nor a name is NOT excluded by `normalizeSearchItems` — the
normalizer returns the selected array unfiltered, so the bare item `{}` is
still a member of the output, refuting the claim at this input. -/
theorem C6_counterexample :
    (JVal.obj []) ∈ normalizeSearchItems (.arr [JVal.obj []]) ∧
    toId ((jGet (JVal.obj []) "id") <|> (jGet (JVal.obj []) "songid")) = none ∧
    jLookup (JVal.obj []) "name" = none ∧
    jLookup (JVal.obj []) "title" = none :=
  ⟨List.mem_cons_self _ _, rfl, rfl, rfl⟩

/-- C6 amended: the normalizer performs no per-item filtering at all — every
item of the selected array, including items missing both identifier and name,
is kept in the output candidate sequence (missing names are later papered
over by `pickName`'s `未知歌曲` default). -/
theorem C6_amended (xs : List JVal) (it : JVal) (h : it ∈ xs) :
    it ∈ normalizeSearchItems (.arr xs) :=
  h

/-- C6 amended, witnessed at a concrete input. -/
theorem C6_amended_witness :
    (JVal.str "x") ∈ normalizeSearchItems (.arr [JVal.str "x"]) :=
  C6_amended [JVal.str "x"] (JVal.str "x") (List.mem_cons_self _ _)

/-- C2: with configured quality 999 the resolver tries the ladder
[999, 740, 320, 192, 128] in order; if tiers 999 and 740 yield no usable url
and 320 yields a non-empty url `u`, the loop returns `u` with recorded
bitrate 320 and the only tiers queried are 999, 740, 320 — tiers 192 and 128
are never queried.  The ladder itself is the fixed descending one, truncated
to start at the configured tier for lower settings. -/
theorem C2_bitrate_ladder (env : IndexTs.Env) (u : String)
    (h999 : IndexTs.usableUrl (env.resolve 999) = false)
    (h740 : IndexTs.usableUrl (env.resolve 740) = false)
    (h320 : env.resolve 320 = some u) (hu : u ≠ "") :
    IndexTs.resolveLoop env (IndexTs.brFallback 999) =
      (some (u, 320),
        [IndexTs.Ev.resolveCall 999, IndexTs.Ev.resolveCall 740, IndexTs.Ev.resolveCall 320]) ∧
    IndexTs.brFallback 999 = [999, 740, 320, 192, 128] ∧
    IndexTs.brFallback 740 = [740, 320, 192, 128] ∧
    IndexTs.brFallback 320 = [320, 192, 128] ∧
    IndexTs.brFallback 192 = [192, 128] ∧
    IndexTs.brFallback 128 = [128] := by
  refine ⟨?_, rfl, rfl, rfl, rfl, rfl⟩
  have e1 := resolveLoop_cons_miss env 999 [740, 320, 192, 128] h999
  have e2 := resolveLoop_cons_miss env 740 [320, 192, 128] h740
  have e3 := resolveLoop_cons_hit env 320 [192, 128] u h320 hu
  show IndexTs.resolveLoop env [999, 740, 320, 192, 128] = _
  rw [e1, e2, e3]

/-- C2, witnessed: the environment that fails at 999 and 740 and succeeds at
320 with `http://h/a.mp3` queries exactly [999, 740, 320] and records 320. -/
theorem C2_bitrate_ladder_witness :
    IndexTs.resolveLoop IndexTs.envHit320 (IndexTs.brFallback 999) =
      (some ("http://h/a.mp3", 320),
        [IndexTs.Ev.resolveCall 999, IndexTs.Ev.resolveCall 740, IndexTs.Ev.resolveCall 320]) ∧
    IndexTs.brFallback 999 = [999, 740, 320, 192, 128] ∧
    IndexTs.brFallback 740 = [740, 320, 192, 128] ∧
    IndexTs.brFallback 320 = [320, 192, 128] ∧
    IndexTs.brFallback 192 = [192, 128] ∧
    IndexTs.brFallback 128 = [128] :=
  C2_bitrate_ladder IndexTs.envHit320 "http://h/a.mp3" (by decide) (by decide) (by decide)
    (by decide)

/-- C1 (code bug): in the main variant a next-page request whose search call
fails is NOT a no-op on stored state: `st.page += 1` happens on the stored
object before the `try`, so after the failed call the stored page counter is
2 although it was 1 before the request (the candidate list is unchanged).
The `part_000` middleware variant, by contrast, leaves the stored state
completely unchanged on a failed page turn, which is what the claim
demands. -/
theorem C1_failed_pageturn_divergence :
    ((IndexTs.middlewareStep IndexTs.defCfg IndexTs.envBase (some IndexTs.stTune)
        "下一页").pendingAfter.map IndexTs.PendingState.page) = some 2 ∧
    IndexTs.stTune.page = 1 ∧
    ((IndexTs.middlewareStep IndexTs.defCfg IndexTs.envBase (some IndexTs.stTune)
        "下一页").pendingAfter.map IndexTs.PendingState.items) = some IndexTs.stTune.items ∧
    (Part000.middlewareP Part000.pCfg Part000.pEnvFailSearch (some Part000.pSt)
        "下一页" 1000).pendingAfter = some Part000.pSt :=
  ⟨rfl, rfl, rfl, rfl⟩

/-- C3: when the selected candidate's known duration exceeds the enabled
configured maximum (`durationGuard` true), no HTTP binary download event ever
occurs in the handler's trace — the duration check sits before the download,
never after it — and, whenever resolution produced a url at all (so delivery
was imminent), the handler aborts with the duration-exceeded outcome. -/
theorem C3_duration_gate (cfg : IndexTs.Config) (env : IndexTs.Env)
    (st : IndexTs.PendingState) (n : Int)
    (hg : IndexTs.durationGuard cfg (st.items.getD (n.toNat - 1) .null) = true) :
    IndexTs.Ev.download ∉ (IndexTs.handleSelection cfg env st n).events ∧
    (∀ u br, (IndexTs.resolveLoop env (IndexTs.brFallback cfg.br)).1 = some (u, br) →
      ¬ (n < 1 ∨ n > (st.items.length : Int)) →
      (toId ((jGet (st.items.getD (n.toNat - 1) .null) "id") <|>
        (jGet (st.items.getD (n.toNat - 1) .null) "songid"))).isSome = true →
      (IndexTs.handleSelection cfg env st n).outcome =
        IndexTs.SelOutcome.durationExceeded) := by
  constructor
  · simp only [IndexTs.handleSelection]
    split
    · simp
    · split
      · simp
      · split
        · intro hmem
          rcases List.mem_append.mp hmem with h | h
          · exact download_not_resolveEvents env _ h
          · exact download_not_tipRecallEvents cfg h
        · intro hmem
          rcases List.mem_append.mp hmem with h | h
          · exact download_not_resolveEvents env _ h
          · exact download_not_tipRecallEvents cfg h
  · intro u br hres hrange hid
    obtain ⟨sid, hsid⟩ := Option.isSome_iff_exists.mp hid
    simp only [IndexTs.handleSelection, hsid, hres, hg, if_neg hrange]
    simp

/-- C3, witnessed: `songTune` lasts 2000 s > 30 min; with resolution
succeeding at tier 999, the handler reports duration-exceeded and its trace
holds no download event. -/
theorem C3_duration_gate_witness :
    IndexTs.Ev.download ∉
      (IndexTs.handleSelection IndexTs.defCfg IndexTs.envHitAll IndexTs.stTune 1).events ∧
    (IndexTs.handleSelection IndexTs.defCfg IndexTs.envHitAll IndexTs.stTune 1).outcome =
      IndexTs.SelOutcome.durationExceeded :=
  ⟨(C3_duration_gate IndexTs.defCfg IndexTs.envHitAll IndexTs.stTune 1 (by decide)).1,
    (C3_duration_gate IndexTs.defCfg IndexTs.envHitAll IndexTs.stTune 1 (by decide)).2
      "http://h/a.mp3" 999 (by decide) (by decide) (by decide)⟩

/-- C10: in the main variant, with send mode `record` and forced transcoding
off, once a url is resolved at tier `br` and the duration limit does not
trigger, the delivery takes the download-and-transcode path — and never sends
the direct url — whenever the url looks like `.wma` or `br` is 320 or
higher; the direct link is sent exactly when neither condition holds (and
then no download happens). -/
theorem C10_record_mode_transcode_gate (cfg : IndexTs.Config) (env : IndexTs.Env)
    (st : IndexTs.PendingState) (n : Int) (u : String) (br : Nat)
    (hmode : cfg.sendMode = IndexTs.SendMode.record)
    (hforce : cfg.forceTranscode = false)
    (hrange : ¬ (n < 1 ∨ n > (st.items.length : Int)))
    (hid : (toId ((jGet (st.items.getD (n.toNat - 1) .null) "id") <|>
      (jGet (st.items.getD (n.toNat - 1) .null) "songid"))).isSome = true)
    (hres : (IndexTs.resolveLoop env (IndexTs.brFallback cfg.br)).1 = some (u, br))
    (hdur : IndexTs.durationGuard cfg (st.items.getD (n.toNat - 1) .null) = false) :
    ((isLikelyWma (some u) || decide (320 ≤ br)) = true →
      IndexTs.Ev.download ∈ (IndexTs.handleSelection cfg env st n).events ∧
      IndexTs.hasDirectSend (IndexTs.handleSelection cfg env st n).events = false) ∧
    ((isLikelyWma (some u) || decide (320 ≤ br)) = false →
      IndexTs.Ev.sendDirect u ∈ (IndexTs.handleSelection cfg env st n).events ∧
      IndexTs.Ev.download ∉ (IndexTs.handleSelection cfg env st n).events) := by
  obtain ⟨sid, hsid⟩ := Option.isSome_iff_exists.mp hid
  have hb : (IndexTs.SendMode.record == IndexTs.SendMode.buffer) = false := rfl
  have hnt : IndexTs.needTranscode cfg u br = (isLikelyWma (some u) || decide (320 ≤ br)) := by
    simp [IndexTs.needTranscode, hforce, hmode, hb]
  constructor
  · intro hcond
    simp only [IndexTs.handleSelection, hsid, hres, hdur, if_neg hrange, hnt, hcond,
      Bool.false_eq_true, if_false, Bool.not_true, Bool.false_and]
    split
    · exact ⟨by simp, by rw [hasDirectSend_append, hasDirectSend_append,
        hasDirectSend_resolveEvents, hasDirectSend_recallEvents]; rfl⟩
    · split
      · exact ⟨by simp, by rw [hasDirectSend_append, hasDirectSend_append,
          hasDirectSend_resolveEvents, hasDirectSend_recallEvents]; rfl⟩
      · split
        · exact ⟨by simp, by rw [hasDirectSend_append, hasDirectSend_append,
            hasDirectSend_resolveEvents, hasDirectSend_recallEvents]; rfl⟩
        · exact ⟨by simp, by rw [hasDirectSend_append, hasDirectSend_append,
            hasDirectSend_resolveEvents, hasDirectSend_recallEvents]; rfl⟩
  · intro hcond
    have htt : (IndexTs.SendMode.record == IndexTs.SendMode.record) = true := rfl
    simp only [IndexTs.handleSelection, hsid, hres, hdur, if_neg hrange, hnt, hcond,
      Bool.false_eq_true, if_false, Bool.not_false, Bool.true_and, hmode, htt,
      eq_self_iff_true, if_true]
    refine ⟨by simp, ?_⟩
    intro hmem
    rcases List.mem_append.mp hmem with h | h
    · rcases List.mem_append.mp h with h | h
      · exact download_not_resolveEvents env _ h
      · simp at h
    · exact download_not_recallEvents cfg _ h

/-- C10, witnessed: `.wma` url resolved at tier 999 with `record` mode and no
forced transcoding still downloads and never sends the direct link. -/
theorem C10_record_mode_transcode_gate_witness :
    IndexTs.Ev.download ∈
      (IndexTs.handleSelection IndexTs.defCfg IndexTs.envWma IndexTs.stShort 1).events ∧
    IndexTs.hasDirectSend
      (IndexTs.handleSelection IndexTs.defCfg IndexTs.envWma IndexTs.stShort 1).events = false :=
  (C10_record_mode_transcode_gate IndexTs.defCfg IndexTs.envWma IndexTs.stShort 1
    "http://h/a.wma" 999 rfl rfl (by decide) (by decide) (by decide) (by decide)).1 (by decide)

/-- C4 counterexample: in the main variant, with `keepMenuIfSendFailed`
enabled, a FAILED delivery still removes the pending selection for the key
(`pending.delete(k)` runs unconditionally at the end of `handleSelection`),
so the pending selection is not retrievable afterwards — refuting the claim
at this input.  (`keepMenuIfSendFailed` only suppresses recall of the menu
messages in this variant.) -/
theorem C4_counterexample :
    IndexTs.cfgBr128.keepMenuIfSendFailed = true ∧
    (IndexTs.handleSelection IndexTs.cfgBr128 IndexTs.envSendFail IndexTs.stShort 1).sentOk
      = false ∧
    (IndexTs.handleSelection IndexTs.cfgBr128 IndexTs.envSendFail IndexTs.stShort 1).pendingAfter
      = none :=
  ⟨rfl, by decide, rfl⟩

/-- C4 amended: a successful delivery always removes the pending selection
(in the main variant the handler removes it on every path, success or
failure); the keep-on-failure behaviour the claim describes exists only in
the `part_000` variant, whose selection branch re-stores the pending entry
with the same candidate list and a refreshed `createdAt` when the delivery
failed (regardless of `keepMenuIfSendFailed`, which only gates menu-message
recall). -/
theorem C4_amended :
    (∀ (cfg : IndexTs.Config) (env : IndexTs.Env) (st : IndexTs.PendingState) (n : Int),
      (IndexTs.handleSelection cfg env st n).pendingAfter = none) ∧
    (∀ (cfg : Part000.Config) (env : Part000.Env) (st : Part000.PendingState)
        (song : Part000.Song) (now : Nat),
      ((Part000.selectionStep cfg env st song now).sentOk = some true →
        (Part000.selectionStep cfg env st song now).pendingAfter = none) ∧
      ((Part000.selectionStep cfg env st song now).sentOk = some false →
        (Part000.selectionStep cfg env st song now).pendingAfter =
          some { st with createdAt := now })) := by
  constructor
  · intro cfg env st n
    simp only [IndexTs.handleSelection]
    repeat' split
    all_goals rfl
  · intro cfg env st song now
    constructor
    · intro h
      simp only [Part000.selectionStep] at h ⊢
      have hx := Option.some.inj h
      rw [hx]
      simp
    · intro h
      simp only [Part000.selectionStep] at h ⊢
      have hx := Option.some.inj h
      rw [hx]
      simp

/-- C4 amended, witnessed: a successful main-variant delivery removes the
entry; a failed `part_000` delivery re-stores it with `createdAt := 777`
(and, by the record update, the unchanged song list). -/
theorem C4_amended_witness :
    (IndexTs.handleSelection IndexTs.defCfg IndexTs.envHitAll IndexTs.stShort 1).pendingAfter
      = none ∧
    (Part000.selectionStep Part000.pCfg Part000.pEnvSendFail Part000.pSt Part000.pSongA
      777).pendingAfter = some { Part000.pSt with createdAt := 777 } :=
  ⟨C4_amended.1 IndexTs.defCfg IndexTs.envHitAll IndexTs.stShort 1,
    (C4_amended.2 Part000.pCfg Part000.pEnvSendFail Part000.pSt Part000.pSongA 777).2
      (by decide)⟩

/-- C8: once the elapsed time since `createdAt` exceeds the configured prompt
timeout, the `part_000` middleware discards the state and falls through on
the very next inbound check, whatever the input's content is (so an expired
pending selection never intercepts paging, exit or numeric input); and the
main variant's timeout-timer callback likewise deletes the entry whenever it
fires at or past the deadline. -/
theorem C8_expiry_discard (cfg : Part000.Config) (env : Part000.Env)
    (st : Part000.PendingState) (content : String) (now : Nat)
    (h : now - st.createdAt > cfg.promptTimeoutSec * 1000) :
    (Part000.middlewareP cfg env (some st) content now).pendingAfter = none ∧
    (Part000.middlewareP cfg env (some st) content now).action = Part000.ActionP.next ∧
    (Part000.middlewareP cfg env (some st) content now).resolvedOn = [] ∧
    (∀ (icfg : IndexTs.Config) (ist : IndexTs.PendingState) (inow : Nat),
      inow - ist.createdAt ≥ icfg.promptTimeoutSec * 1000 →
      IndexTs.timeoutCheck icfg (some ist) inow = none) := by
  refine ⟨?_, ?_, ?_, fun icfg ist inow hi => by simp [IndexTs.timeoutCheck, hi]⟩ <;>
    simp [Part000.middlewareP, h]

/-- C8, witnessed: a 45 s timeout expired at t = 46 s makes the next inbound
numeric input fall through with the state gone; the main variant's timer
fired exactly at the 45 s deadline also deletes the entry. -/
theorem C8_expiry_discard_witness :
    (Part000.middlewareP Part000.pCfg Part000.pEnvFailSearch (some Part000.pSt)
      "1" 46000).pendingAfter = none ∧
    (Part000.middlewareP Part000.pCfg Part000.pEnvFailSearch (some Part000.pSt)
      "1" 46000).action = Part000.ActionP.next ∧
    IndexTs.timeoutCheck IndexTs.defCfg (some IndexTs.stTune) 45000 = none :=
  ⟨(C8_expiry_discard Part000.pCfg Part000.pEnvFailSearch Part000.pSt "1" 46000 (by decide)).1,
    (C8_expiry_discard Part000.pCfg Part000.pEnvFailSearch Part000.pSt "1" 46000 (by decide)).2.1,
    (C8_expiry_discard Part000.pCfg Part000.pEnvFailSearch Part000.pSt "1" 46000
      (by decide)).2.2.2 IndexTs.defCfg IndexTs.stTune 45000 (by decide)⟩

/-- C9: a menu item renders as `index. title - artist` with the artist
segment omitted entirely when the artist is empty and the duration suffix
omitted when the duration is unknown (no placeholder token); in particular,
for two items named "Song A" / "Song B" with no artist and no duration, both
renderers produce exactly the item lines "1. Song A" and "2. Song B" (at
positions 2 and 3 of the line list, after the header and blank line). -/
theorem C9_menu_rendering :
    (∀ (it : JVal) (i : Nat), pickArtist it = "" → pickDurationSec it = none →
      IndexTs.menuItemLine it i = toString (i + 1) ++ ". " ++ pickName it) ∧
    (∀ (cfg : IndexTs.Config), 2 ≤ cfg.searchCount → ∀ (kw : String) (page : Nat),
      (IndexTs.renderMenuLines cfg kw page [IndexTs.songA, IndexTs.songB]).get? 2 =
        some "1. Song A" ∧
      (IndexTs.renderMenuLines cfg kw page [IndexTs.songA, IndexTs.songB]).get? 3 =
        some "2. Song B") ∧
    (∀ (cfg : Part000.Config) (kw : String) (page : Nat),
      (Part000.renderMenuLinesP cfg kw page [Part000.pSongA, Part000.pSongB]).get? 2 =
        some "1. Song A" ∧
      (Part000.renderMenuLinesP cfg kw page [Part000.pSongA, Part000.pSongB]).get? 3 =
        some "2. Song B") := by
  refine ⟨?_, ?_, ?_⟩
  · intro it i ha hd
    simp only [IndexTs.menuItemLine, ha, hd]
    simp [fmtDuration]
  · intro cfg h2 kw page
    have ht : ([IndexTs.songA, IndexTs.songB].take cfg.searchCount) =
        [IndexTs.songA, IndexTs.songB] := List.take_of_length_le (by simpa using h2)
    constructor
    · simp [IndexTs.renderMenuLines, ht, List.enum, List.enumFrom]
      decide
    · simp [IndexTs.renderMenuLines, ht, List.enum, List.enumFrom]
      decide
  · intro cfg kw page
    constructor
    · simp [Part000.renderMenuLinesP, List.enum, List.enumFrom]
      decide
    · simp [Part000.renderMenuLinesP, List.enum, List.enumFrom]
      decide

/-- C9, witnessed at the default configurations, keyword "alpha", page 1. -/
theorem C9_menu_rendering_witness :
    IndexTs.menuItemLine IndexTs.songA 0 = "1. Song A" ∧
    (IndexTs.renderMenuLines IndexTs.defCfg "alpha" 1 [IndexTs.songA, IndexTs.songB]).get? 2 =
      some "1. Song A" ∧
    (IndexTs.renderMenuLines IndexTs.defCfg "alpha" 1 [IndexTs.songA, IndexTs.songB]).get? 3 =
      some "2. Song B" ∧
    (Part000.renderMenuLinesP Part000.pCfg "alpha" 1 [Part000.pSongA, Part000.pSongB]).get? 2 =
      some "1. Song A" :=
  ⟨by
    have := C9_menu_rendering.1 IndexTs.songA 0 (by decide) (by decide)
    rw [this]
    decide,
  (C9_menu_rendering.2.1 IndexTs.defCfg (by decide) "alpha" 1).1,
  (C9_menu_rendering.2.1 IndexTs.defCfg (by decide) "alpha" 1).2,
  (C9_menu_rendering.2.2 Part000.pCfg "alpha" 1).1⟩

/-- C5 counterexample: a pending selection holding one candidate that has a
name but no usable identifier, with numeric input "1" (so 1 ≤ n ≤ N): the
resolver is never invoked (the handler aborts on the missing id before the
resolve ladder), refuting "resolution is invoked exactly once" at this
input. -/
theorem C5_counterexample :
    IndexTs.numberAsInt "1" = some 1 ∧
    IndexTs.stNoId.items.length = 1 ∧
    (IndexTs.middlewareStep IndexTs.defCfg IndexTs.envHitAll (some IndexTs.stNoId)
      "1").resolvedOn = [] :=
  ⟨rfl, rfl, rfl⟩

/-- C5 amended: for text that parses as an integer `n` (and is not a command,
page, or exit input), if `1 ≤ n ≤ N` AND — in the main variant — the stored
candidate at 0-based position `n-1` carries a usable identifier, resolution
is invoked exactly once and on exactly that candidate; if the candidate
lacks an identifier the main variant aborts without resolving (see the
counterexample); if `n ≤ 0` or `n > N`, resolution is never invoked (the
`part_000` variant moreover falls through to the next handler).  The
`part_000` variant needs no identifier proviso: any in-range `n` resolves
candidate `n-1` exactly once. -/
theorem C5_amended :
    (∀ (cfg : IndexTs.Config) (env : IndexTs.Env) (st : IndexTs.PendingState)
        (rawText : String) (n : Int),
      trimS rawText ≠ "" →
      IndexTs.firstWord (trimS rawText) ≠ cfg.command →
      IndexTs.firstWord (trimS rawText) ∉ cfg.aliasList →
      IndexTs.isExitInput (trimS rawText) cfg = false →
      trimS rawText ≠ cfg.nextPageCmd →
      trimS rawText ≠ cfg.prevPageCmd →
      IndexTs.numberAsInt (trimS rawText) = some n →
      ((1 ≤ n → n ≤ (st.items.length : Int) →
        (toId ((jGet (st.items.getD (n.toNat - 1) .null) "id") <|>
          (jGet (st.items.getD (n.toNat - 1) .null) "songid"))).isSome = true →
        (IndexTs.middlewareStep cfg env (some st) rawText).resolvedOn =
          [st.items.getD (n.toNat - 1) .null]) ∧
       ((n < 1 ∨ n > (st.items.length : Int)) →
        (IndexTs.middlewareStep cfg env (some st) rawText).resolvedOn = []))) ∧
    (∀ (cfg : Part000.Config) (env : Part000.Env) (st : Part000.PendingState)
        (content : String) (now : Nat) (n : Int),
      now - st.createdAt ≤ cfg.promptTimeoutSec * 1000 →
      trimS content ≠ "" →
      trimS content ≠ cfg.nextPageCommand →
      trimS content ≠ cfg.prevPageCommand →
      Part000.isExitInputP (trimS content) cfg.exitCommandList = false →
      IndexTs.numberAsInt (trimS content) = some n →
      ((1 ≤ n → n ≤ (st.songs.length : Int) →
        (Part000.middlewareP cfg env (some st) content now).resolvedOn =
          [st.songs.getD (n.toNat - 1)
            { name := "", artist := .absent, urlId := none, id := "" }]) ∧
       ((n < 1 ∨ n > (st.songs.length : Int)) →
        (Part000.middlewareP cfg env (some st) content now).resolvedOn = [] ∧
        (Part000.middlewareP cfg env (some st) content now).action =
          Part000.ActionP.next))) := by
  constructor
  · intro cfg env st rawText n h1 h2 h3 h4 h5 h6 h7
    have hmw : (IndexTs.middlewareStep cfg env (some st) rawText).sel =
        some (IndexTs.handleSelection cfg env st n) := by
      simp only [IndexTs.middlewareStep, if_neg h1, if_neg (not_or.mpr ⟨h2, h3⟩), h4,
        Bool.false_eq_true, if_false, if_neg h5, if_neg h6, h7]
    have hro : (IndexTs.middlewareStep cfg env (some st) rawText).resolvedOn =
        (IndexTs.handleSelection cfg env st n).resolvedCandidates := by
      rw [IndexTs.MwResult.resolvedOn, hmw]
    constructor
    · intro hge hle hid
      obtain ⟨sid, hsid⟩ := Option.isSome_iff_exists.mp hid
      have hrange : ¬ (n < 1 ∨ n > (st.items.length : Int)) :=
        not_or.mpr ⟨not_lt.mpr hge, not_lt.mpr hle⟩
      rw [hro]
      simp only [IndexTs.handleSelection, if_neg hrange, hsid]
      repeat' split
      all_goals rfl
    · intro hout
      rw [hro]
      simp only [IndexTs.handleSelection, if_pos hout]
  · intro cfg env st content now n hp1 hp2 hp3 hp4 hp5 hp6
    have hexp : ¬ (now - st.createdAt > cfg.promptTimeoutSec * 1000) := not_lt.mpr hp1
    constructor
    · intro hge hle
      have hrange : ¬ (n < 1 ∨ n > (st.songs.length : Int)) :=
        not_or.mpr ⟨not_lt.mpr hge, not_lt.mpr hle⟩
      simp only [Part000.middlewareP, if_neg hexp, if_neg hp2, if_neg (not_or.mpr ⟨hp3, hp4⟩),
        hp5, Bool.false_eq_true, if_false, hp6, if_neg hrange, Part000.selectionStep]
    · intro hout
      simp only [Part000.middlewareP, if_neg hexp, if_neg hp2, if_neg (not_or.mpr ⟨hp3, hp4⟩),
        hp5, Bool.false_eq_true, if_false, hp6, if_pos hout]
      constructor <;> trivial

/-- C5 amended, witnessed: input "1" on a one-candidate (with id) state
resolves exactly that candidate once in both variants; input "2" on the same
state (out of range) resolves nothing. -/
theorem C5_amended_witness :
    (IndexTs.middlewareStep IndexTs.defCfg IndexTs.envHitAll (some IndexTs.stShort)
      "1").resolvedOn = [IndexTs.songShort] ∧
    (IndexTs.middlewareStep IndexTs.defCfg IndexTs.envHitAll (some IndexTs.stShort)
      "2").resolvedOn = [] ∧
    (Part000.middlewareP Part000.pCfg Part000.pEnvFailSearch (some Part000.pSt)
      "1" 500).resolvedOn = [Part000.pSongA] :=
  ⟨(C5_amended.1 IndexTs.defCfg IndexTs.envHitAll IndexTs.stShort "1" 1 (by decide)
      (by decide) (by decide) (by decide) (by decide) (by decide) (by decide)).1
      (by decide) (by decide) (by decide),
   (C5_amended.1 IndexTs.defCfg IndexTs.envHitAll IndexTs.stShort "2" 2 (by decide)
      (by decide) (by decide) (by decide) (by decide) (by decide) (by decide)).2
      (by decide),
   (C5_amended.2 Part000.pCfg Part000.pEnvFailSearch Part000.pSt "1" 500 1 (by decide)
      (by decide) (by decide) (by decide) (by decide) (by decide)).1
      (by decide) (by decide)⟩

end MusicToVoice
